import Mathlib

/-!
Verification of the reconciliation core of an ETL pipeline
(validation engine, deduplication engine, upsert loader, orchestrator).

The Python sources are shallowly embedded: DataFrames become lists of
rows plus the list of present column names, machine floats for amounts
become rationals, timestamps become integers (epoch seconds), and the
wall clock, I/O results and database failures become explicit
parameters.  Fallible operations return Except.
-/

namespace ETL

/-! ## Record model (one row of an operational DataFrame)

Mirrors the column set of the operational files (schemas.py).  The
`cuenta_destino` / `banco_destino` columns are nullable; cells of other
columns are modelled as total values (dtype coercion and null cells are
outside this embedding).  `content_hash` carries the value of the
optional `content_hash` column; whether that column is present in a
frame is tracked separately on the frame itself. -/

structure OpRow where
  fecha_operacion : Int
  numero_operacion : String
  tipo_operacion : String
  monto : ℚ
  moneda : String
  cuenta_origen : String
  cuenta_destino : Option String
  banco_origen : String
  banco_destino : Option String
  descripcion : String
  estado : String
  canal : String
  content_hash : String
  deriving DecidableEq, Inhabited

/-- A pandas DataFrame: the set of columns that are present, and the
rows (in input order, positionally indexed 0..n-1). -/
structure DataFrame where
  presentCols : List String
  rows : List OpRow
  deriving DecidableEq, Inhabited

/-! ## Regular-expression checks of schemas.py

`Check.str_matches(r"^OP-\d{8}$")` and
`Check.str_matches(r"^\d{3}-\d{7}-\d-\d{2}$")`, implemented directly on
the character list (fully anchored match, as in the source patterns). -/

def matchesOpId (s : String) : Bool :=
  match s.data with
  | 'O' :: 'P' :: '-' :: rest => rest.length == 8 && rest.all Char.isDigit
  | _ => false

def matchesAccount (s : String) : Bool :=
  let cs := s.data
  cs.length == 16 &&
  (cs.take 3).all Char.isDigit &&
  cs.getD 3 'x' == '-' &&
  ((cs.drop 4).take 7).all Char.isDigit &&
  cs.getD 11 'x' == '-' &&
  ((cs.drop 12).take 1).all Char.isDigit &&
  cs.getD 13 'x' == '-' &&
  (cs.drop 14).all Char.isDigit

/-! ## Pandera schema of OperationalSchema.get_schema()

Lazy validation collects one failure case per violated check per cell,
plus column-level cases.  A failure case records the row index (None
for column-level failures, e.g. a required column that is absent),
the column and the check that failed — the columns of pandera's
`failure_cases` frame used by `_handle_schema_errors`. -/

structure FailureCase where
  idx : Option Nat
  column : String
  check : String
  deriving DecidableEq

/-- The required columns, in schema declaration order. -/
def requiredCols : List String :=
  ["fecha_operacion", "numero_operacion", "tipo_operacion", "monto", "moneda",
   "cuenta_origen", "banco_origen", "descripcion", "estado", "canal"]

/-- Per-cell check failures of one column for the row at position `i`.
`now` is the clock value captured by `datetime.now()` when the schema is
built (the future-date check). -/
def colFailures (now : Int) (col : String) (i : Nat) (r : OpRow) : List FailureCase :=
  if col == "fecha_operacion" then
    if r.fecha_operacion ≤ now then [] else [⟨some i, col, "less_than_or_equal_to"⟩]
  else if col == "numero_operacion" then
    if matchesOpId r.numero_operacion then [] else [⟨some i, col, "str_matches"⟩]
  else if col == "tipo_operacion" then
    if ["DEPOSITO", "RETIRO", "TRANSFERENCIA"].contains r.tipo_operacion then []
    else [⟨some i, col, "isin"⟩]
  else if col == "monto" then
    (if 0 < r.monto then [] else [⟨some i, col, "greater_than"⟩]) ++
    (if r.monto ≤ 1000000 then [] else [⟨some i, col, "less_than_or_equal_to"⟩])
  else if col == "moneda" then
    if ["PEN", "USD"].contains r.moneda then [] else [⟨some i, col, "isin"⟩]
  else if col == "cuenta_origen" then
    if matchesAccount r.cuenta_origen then [] else [⟨some i, col, "str_matches"⟩]
  else if col == "estado" then
    if ["COMPLETADA", "PENDIENTE", "FALLIDA"].contains r.estado then []
    else [⟨some i, col, "isin"⟩]
  else if col == "canal" then
    if ["WEB", "MOBILE", "ATM", "SUCURSAL"].contains r.canal then []
    else [⟨some i, col, "isin"⟩]
  else []

/-- Failure cases of the `unique=True` setting on `numero_operacion`:
every row whose operation id already occurred at an earlier position. -/
def uniqueFailures (rows : List OpRow) : List FailureCase :=
  (List.range rows.length).filterMap fun i =>
    if ((rows.take i).map (·.numero_operacion)).contains
        ((rows.getD i default).numero_operacion)
    then some ⟨some i, "numero_operacion", "field_uniqueness"⟩
    else none

/-- All failure cases of `schema.validate(df, lazy=True)`: per required
column, either a column-level case when the column is absent, or the
per-cell check failures (plus uniqueness cases for the id column). -/
def schemaFailureCases (now : Int) (df : DataFrame) : List FailureCase :=
  (requiredCols.map fun col =>
    if df.presentCols.contains col then
      ((df.rows.enum.map fun p => colFailures now col p.1 p.2).flatten) ++
      (if col == "numero_operacion" then uniqueFailures df.rows else [])
    else
      [⟨none, col, "column_in_dataframe"⟩]).flatten

/-! ## ValidationReport (schemas.py) -/

/-- One entry of `report.errors`; `row` is `case.get('index', -1)` —
the value stored by pandera, which is None for column-level cases. -/
structure ErrorEntry where
  row : Option Nat
  column : String
  error : String
  deriving DecidableEq

structure ValidationReport where
  total_rows : Nat
  valid_rows : Nat
  invalid_rows : Nat
  errors : List ErrorEntry
  warnings : List String
  deriving DecidableEq

/-- `ValidationReport.add_error`: appends, with no cap. -/
def ValidationReport.add_error (rep : ValidationReport) (row : Option Nat)
    (column error_msg : String) : ValidationReport :=
  { rep with errors := rep.errors ++ [⟨row, column, error_msg⟩] }

/-- `ValidationReport.add_warning`. -/
def ValidationReport.add_warning (rep : ValidationReport) (message : String) :
    ValidationReport :=
  { rep with warnings := rep.warnings ++ [message] }

/-! ## OperationalSchema.validate_checksum and DataValidator -/

/-- `df['monto'].sum()`. -/
def sumMonto (df : DataFrame) : ℚ :=
  (df.rows.map (·.monto)).sum

/-- `OperationalSchema.validate_checksum`: absolute tolerance 0.01,
strict comparison, True when no expected total is given. -/
def validate_checksum (df : DataFrame) (expected_total : Option ℚ) : Bool :=
  match expected_total with
  | none => true
  | some t => |sumMonto df - t| < 1 / 100

/-- The warning text of the checksum branch of `DataValidator.validate`. -/
def checksumMsg (expected : ℚ) (got : ℚ) : String :=
  "Checksum mismatch: expected " ++ toString expected ++ ", got " ++ toString got

/-- The distinct integer row indices extracted from the failure cases
(`failure_cases['index'].dropna()`, collected into a Python set). -/
def invalidIndicesOf (fcs : List FailureCase) : List Nat :=
  (fcs.filterMap (·.idx)).dedup

/-- `DataValidator._handle_schema_errors`: append one report error per
failure case, then drop the rows whose position carries an integer
index — unless no failure case carries one, in which case the whole
frame is kept. -/
def handleSchemaErrors (df : DataFrame) (fcs : List FailureCase)
    (rep : ValidationReport) : DataFrame × ValidationReport :=
  let rep1 := fcs.foldl (fun rp fc => rp.add_error fc.idx fc.column fc.check) rep
  let inv := invalidIndicesOf fcs
  let validRows :=
    if inv.isEmpty then df.rows
    else (df.rows.enum.filter fun p => !inv.contains p.1).map (·.2)
  ({ df with rows := validRows }, { rep1 with valid_rows := validRows.length })

/-- `DataValidator.validate`: schema validation (lazy), optional
checksum warning, and the final `invalid_rows := total - valid`. -/
def validate (now : Int) (df : DataFrame) (expected_checksum : Option ℚ) :
    DataFrame × ValidationReport :=
  let rep0 : ValidationReport :=
    { total_rows := df.rows.length, valid_rows := 0, invalid_rows := 0,
      errors := [], warnings := [] }
  let fcs := schemaFailureCases now df
  let step1 :=
    if fcs.isEmpty then (df, { rep0 with valid_rows := df.rows.length })
    else handleSchemaErrors df fcs rep0
  let rep2 :=
    match expected_checksum with
    | none => step1.2
    | some t =>
      if validate_checksum step1.1 (some t) then step1.2
      else step1.2.add_warning (checksumMsg t (sumMonto step1.1))
  (step1.1, { rep2 with invalid_rows := rep2.total_rows - rep2.valid_rows })

/-! ## SHA-256 (hashlib.sha256(...).hexdigest())

The content hash of a record is a 16-character prefix of the SHA-256
hex digest of a field concatenation.  The digest is implemented here
over byte lists, with 32-bit words as naturals reduced mod 2^32. -/

/-- Reduce to a 32-bit word. -/
def w32 (x : Nat) : Nat := x % 4294967296

def rotr32 (n x : Nat) : Nat := w32 ((x >>> n) ||| (x <<< (32 - n)))

def ch32 (x y z : Nat) : Nat := (x &&& y) ^^^ ((x ^^^ 4294967295) &&& z)

def maj32 (x y z : Nat) : Nat := (x &&& y) ^^^ (x &&& z) ^^^ (y &&& z)

def bigSigma0 (x : Nat) : Nat := rotr32 2 x ^^^ rotr32 13 x ^^^ rotr32 22 x

def bigSigma1 (x : Nat) : Nat := rotr32 6 x ^^^ rotr32 11 x ^^^ rotr32 25 x

def smallSigma0 (x : Nat) : Nat := rotr32 7 x ^^^ rotr32 18 x ^^^ (x >>> 3)

def smallSigma1 (x : Nat) : Nat := rotr32 17 x ^^^ rotr32 19 x ^^^ (x >>> 10)

/-- The 64 SHA-256 round constants. -/
def K256 : List Nat :=
  [1116352408, 1899447441, 3049323471, 3921009573, 961987163, 1508970993,
   2453635748, 2870763221, 3624381080, 310598401, 607225278, 1426881987,
   1925078388, 2162078206, 2614888103, 3248222580, 3835390401, 4022224774,
   264347078, 604807628, 770255983, 1249150122, 1555081692, 1996064986,
   2554220882, 2821834349, 2952996808, 3210313671, 3336571891, 3584528711,
   113926993, 338241895, 666307205, 773529912, 1294757372, 1396182291,
   1695183700, 1986661051, 2177026350, 2456956037, 2730485921, 2820302411,
   3259730800, 3345764771, 3516065817, 3600352804, 4094571909, 275423344,
   430227734, 506948616, 659060556, 883997877, 958139571, 1322822218,
   1537002063, 1747873779, 1955562222, 2024104815, 2227730452, 2361852424,
   2428436474, 2756734187, 3204031479, 3329325298]

/-- The eight working words of the SHA-256 state. -/
structure Hash8 where
  a : Nat
  b : Nat
  c : Nat
  d : Nat
  e : Nat
  f : Nat
  g : Nat
  h : Nat
  deriving DecidableEq

def sha256Init : Hash8 :=
  ⟨1779033703, 3144134277, 1013904242, 2773480762,
   1359893119, 2600822924, 528734635, 1541459225⟩

/-- `k` bytes of `v`, big endian. -/
def bytesBE : Nat → Nat → List Nat
  | 0, _ => []
  | k + 1, v => bytesBE k (v / 256) ++ [v % 256]

/-- SHA-256 padding: 0x80, zeros to 56 mod 64, 8-byte bit length. -/
def padMessage (msg : List Nat) : List Nat :=
  let padZeros := (120 - (msg.length + 1) % 64) % 64
  msg ++ [0x80] ++ List.replicate padZeros 0 ++ bytesBE 8 (8 * msg.length)

def chunksGo : Nat → List Nat → List (List Nat)
  | 0, _ => []
  | fuel + 1, l => if l.isEmpty then [] else l.take 64 :: chunksGo fuel (l.drop 64)

/-- Split into 64-byte chunks. -/
def chunks64 (l : List Nat) : List (List Nat) := chunksGo l.length l

/-- Big-endian 32-bit words from bytes. -/
def toWords : List Nat → List Nat
  | b0 :: b1 :: b2 :: b3 :: rest =>
    (b0 * 16777216 + b1 * 65536 + b2 * 256 + b3) :: toWords rest
  | _ => []

/-- Extend 16 message words to the 64-word schedule. -/
def extendWords (w : List Nat) : List Nat :=
  (List.range 48).foldl
    (fun acc _ =>
      let n := acc.length
      acc ++ [w32 (acc.getD (n - 16) 0 + smallSigma0 (acc.getD (n - 15) 0) +
                   acc.getD (n - 7) 0 + smallSigma1 (acc.getD (n - 2) 0))])
    w

/-- One compression round. -/
def sha256Round (st : Hash8) (k wt : Nat) : Hash8 :=
  let t1 := w32 (st.h + bigSigma1 st.e + ch32 st.e st.f st.g + k + wt)
  let t2 := w32 (bigSigma0 st.a + maj32 st.a st.b st.c)
  ⟨w32 (t1 + t2), st.a, st.b, st.c, w32 (st.d + t1), st.e, st.f, st.g⟩

/-- Compress one 64-byte chunk into the running hash. -/
def compressChunk (H : Hash8) (chunk : List Nat) : Hash8 :=
  let ws := extendWords (toWords chunk)
  let st := (List.range 64).foldl
    (fun st t => sha256Round st (K256.getD t 0) (ws.getD t 0)) H
  ⟨w32 (H.a + st.a), w32 (H.b + st.b), w32 (H.c + st.c), w32 (H.d + st.d),
   w32 (H.e + st.e), w32 (H.f + st.f), w32 (H.g + st.g), w32 (H.h + st.h)⟩

def sha256Words (msg : List Nat) : Hash8 :=
  (chunks64 (padMessage msg)).foldl compressChunk sha256Init

def hexChar (n : Nat) : Char := ("0123456789abcdef".data).getD n '0'

/-- `k` lowercase hex digits of `v`, big endian. -/
def hexDigits : Nat → Nat → List Char
  | 0, _ => []
  | k + 1, v => hexDigits k (v / 16) ++ [hexChar (v % 16)]

/-- The 64 characters of `hexdigest()`. -/
def sha256hexChars (msg : List Nat) : List Char :=
  let H := sha256Words msg
  ([H.a, H.b, H.c, H.d, H.e, H.f, H.g, H.h].map (hexDigits 8)).flatten

/-- UTF-8 encoding of one code point (`str.encode()`). -/
def utf8Char (c : Char) : List Nat :=
  let n := c.toNat
  if n < 128 then [n]
  else if n < 2048 then [192 + n / 64, 128 + n % 64]
  else if n < 65536 then [224 + n / 4096, 128 + (n / 64) % 64, 128 + n % 64]
  else [240 + n / 262144, 128 + (n / 4096) % 64, 128 + (n / 64) % 64, 128 + n % 64]

def utf8Encode (s : String) : List Nat := (s.data.map utf8Char).flatten

/-! ## Content hash (DataValidator.generate_content_hash and
DeduplicationEngine._generate_content_hash)

Both concatenate `str()` renderings of the four hash columns
`numero_operacion`, `monto`, `fecha_operacion`, `cuenta_origen` and take
the first 16 characters of the SHA-256 hex digest.  The Python `str()`
renderings of the float amount and of the timestamp are modelled by
`toString` on the rational / integer value — any rendering that is a
function of the cell value alone gives the same theorems. -/

def colStr (r : OpRow) (col : String) : String :=
  if col == "numero_operacion" then r.numero_operacion
  else if col == "monto" then toString r.monto
  else if col == "fecha_operacion" then toString r.fecha_operacion
  else if col == "cuenta_origen" then r.cuenta_origen
  else ""

def hashCols : List String :=
  ["numero_operacion", "monto", "fecha_operacion", "cuenta_origen"]

/-- Validator variant: all four columns are required by `df[hash_columns]`. -/
def generate_content_hash_value (r : OpRow) : String :=
  ⟨(sha256hexChars (utf8Encode ((hashCols.map (colStr r)).foldl (· ++ ·) ""))).take 16⟩

/-- Dedup-engine variant: only the hash columns present in the frame
are concatenated (`if col in df.columns`). -/
def dedup_content_hash_value (presentCols : List String) (r : OpRow) : String :=
  ⟨(sha256hexChars (utf8Encode
      (((hashCols.filter (presentCols.contains ·)).map (colStr r)).foldl (· ++ ·) ""))).take 16⟩

/-- `DataValidator.generate_content_hash` over a frame. -/
def generate_content_hash (df : DataFrame) : DataFrame :=
  { presentCols := df.presentCols ++ ["content_hash"],
    rows := df.rows.map fun r => { r with content_hash := generate_content_hash_value r } }

/-- `DeduplicationEngine._generate_content_hash` over a frame. -/
def dedupGenerateContentHash (df : DataFrame) : DataFrame :=
  { presentCols := df.presentCols ++ ["content_hash"],
    rows := df.rows.map fun r =>
      { r with content_hash := dedup_content_hash_value df.presentCols r } }

/-! ## Deduplication engine (dedup_engine.py) -/

/-- One cell value, for tuple comparison in `duplicated(subset=...)`. -/
inductive CellVal where
  | s (v : String)
  | q (v : ℚ)
  | i (v : Int)
  | o (v : Option String)
  deriving DecidableEq

def cellValue (r : OpRow) (col : String) : CellVal :=
  if col == "fecha_operacion" then .i r.fecha_operacion
  else if col == "numero_operacion" then .s r.numero_operacion
  else if col == "tipo_operacion" then .s r.tipo_operacion
  else if col == "monto" then .q r.monto
  else if col == "moneda" then .s r.moneda
  else if col == "cuenta_origen" then .s r.cuenta_origen
  else if col == "cuenta_destino" then .o r.cuenta_destino
  else if col == "banco_origen" then .s r.banco_origen
  else if col == "banco_destino" then .o r.banco_destino
  else if col == "descripcion" then .s r.descripcion
  else if col == "estado" then .s r.estado
  else if col == "canal" then .s r.canal
  else if col == "content_hash" then .s r.content_hash
  else .s ""

/-- `df.duplicated(subset, keep='first')`: mark a row iff its key
already occurred at an earlier position.  `seen` accumulates keys. -/
def dupMask {κ : Type} [DecidableEq κ] (key : OpRow → κ) :
    List κ → List OpRow → List Bool
  | _, [] => []
  | seen, x :: xs =>
    (if key x ∈ seen then true else false) :: dupMask key (key x :: seen) xs

/-- `df[~mask]`: keep the rows whose mask entry is false. -/
def maskKeep : List OpRow → List Bool → List OpRow
  | [], _ => []
  | _ :: _, [] => []
  | x :: xs, b :: bs => if b then maskKeep xs bs else x :: maskKeep xs bs

structure DedupStats where
  total_input : Nat
  duplicates_found : Nat
  duplicates_removed : Nat
  final_count : Nat
  deriving DecidableEq

/-- `DeduplicationEngine._deduplicate_by_hash`: generates the content
hash column when absent, then keep-first by `content_hash`.  Returns
the surviving frame and `duplicates_found`. -/
def deduplicate_by_hash (df : DataFrame) : DataFrame × Nat :=
  let df1 := if df.presentCols.contains "content_hash" then df
             else dedupGenerateContentHash df
  let mask := dupMask (·.content_hash) [] df1.rows
  ({ df1 with rows := maskKeep df1.rows mask }, mask.count true)

/-- `DeduplicationEngine._deduplicate_by_key`: keep-first by the tuple
of the key columns. -/
def deduplicate_by_key (df : DataFrame) (keyCols : List String) : DataFrame × Nat :=
  let mask := dupMask (fun r => keyCols.map (cellValue r)) [] df.rows
  ({ df with rows := maskKeep df.rows mask }, mask.count true)

/-- `DeduplicationEngine.deduplicate`: dispatch on the strategy string,
`ValueError` on an unknown strategy, and the closing statistics
`final_count := len(result)`, `duplicates_removed := total - final`. -/
def deduplicate (df : DataFrame) (strategy : String)
    (key_columns : Option (List String)) : Except String (DataFrame × DedupStats) :=
  let total := df.rows.length
  if strategy == "hash" then
    let (res, found) := deduplicate_by_hash df
    .ok (res, { total_input := total, duplicates_found := found,
                duplicates_removed := total - res.rows.length,
                final_count := res.rows.length })
  else if strategy == "key" then
    let kc := key_columns.getD ["numero_operacion"]
    let (res, found) := deduplicate_by_key df kc
    .ok (res, { total_input := total, duplicates_found := found,
                duplicates_removed := total - res.rows.length,
                final_count := res.rows.length })
  else
    .error ("Unknown strategy: " ++ strategy)

/-! ## SQL loader (sql_loader.py)

The `operaciones` table is modelled as a list of stored rows in
insertion order (the surrogate `id` column is the position).  The
`fecha_carga` column is the load timestamp `pd.Timestamp.now()`,
passed in as the explicit parameter `now`. -/

structure StoredRow where
  row : OpRow
  fecha_carga : Int
  deriving DecidableEq, Inhabited

structure LoadStats where
  rows_inserted : Nat
  rows_updated : Nat
  rows_failed : Nat
  total_processed : Nat
  deriving DecidableEq

/-- The row-update statement of `_upsert_sqlite` (and the MATCHED
branch of the SQL Server MERGE): overwrite every mutable column and
`fecha_carga`; `numero_operacion` is the match key and is not set. -/
def updatedRow (srow : StoredRow) (r : OpRow) (now : Int) : StoredRow :=
  ⟨{ r with numero_operacion := srow.row.numero_operacion }, now⟩

/-- `UPDATE operaciones SET ... WHERE numero_operacion = :num_op`. -/
def applyUpdate (st : List StoredRow) (r : OpRow) (now : Int) : List StoredRow :=
  st.map fun srow =>
    if srow.row.numero_operacion == r.numero_operacion then updatedRow srow r now
    else srow

/-- `SQLLoader._upsert_sqlite`, happy path: partition the batch by
whether the key is already stored, bulk-append the new rows, then apply
the per-row updates in batch order.  Returns the new store and the load
statistics produced by `upsert_data`. -/
def upsertSqlite (df : List OpRow) (store : List StoredRow) (now : Int) :
    List StoredRow × LoadStats :=
  let existing := store.map (·.row.numero_operacion)
  let newRows := df.filter fun r => !existing.contains r.numero_operacion
  let updRows := df.filter fun r => existing.contains r.numero_operacion
  let s1 := store ++ newRows.map (⟨·, now⟩)
  let s2 := updRows.foldl (fun st r => applyUpdate st r now) s1
  (s2, { rows_inserted := newRows.length, rows_updated := updRows.length,
         rows_failed := 0, total_processed := df.length })

/-- The row-by-row update loop of `_upsert_sqlite` with its failure
behaviour made explicit: each update runs in its own connection and is
committed on its own, so when the update of some row raises, every
earlier update (and the bulk insert) is already durable.  `updateFails`
says which row's UPDATE raises; the error carries the store as left
behind. -/
def runUpdates (updateFails : OpRow → Bool) (now : Int) :
    List OpRow → List StoredRow → Except (String × List StoredRow) (List StoredRow)
  | [], st => .ok st
  | r :: rs, st =>
    if updateFails r then .error ("database is locked", st)
    else runUpdates updateFails now rs (applyUpdate st r now)

/-- `SQLLoader.upsert_data` on the SQLite backend, with the fallible
update loop: on success the stats reflect the full batch; on a failure
the wrapper sets `rows_failed = len(df)` and re-raises
`RuntimeError("Failed to load data: ...")`, and the error carries the
store as actually left behind (inserts and earlier updates kept). -/
def upsert_data_sqlite (updateFails : OpRow → Bool) (df : List OpRow)
    (store : List StoredRow) (now : Int) :
    Except (String × List StoredRow × LoadStats) (List StoredRow × LoadStats) :=
  let existing := store.map (·.row.numero_operacion)
  let newRows := df.filter fun r => !existing.contains r.numero_operacion
  let updRows := df.filter fun r => existing.contains r.numero_operacion
  let s1 := store ++ newRows.map (⟨·, now⟩)
  match runUpdates updateFails now updRows s1 with
  | .ok st =>
    .ok (st, { rows_inserted := newRows.length, rows_updated := updRows.length,
               rows_failed := 0, total_processed := df.length })
  | .error (msg, st) =>
    .error ("Failed to load data: " ++ msg, st,
            { rows_inserted := newRows.length, rows_updated := 0,
              rows_failed := df.length, total_processed := df.length })

/-- The type/truncation preparation of `_upsert_sqlserver`
(`.str[:500]` and `.str[:50]`, empty strings back to NULL). -/
def sqlserverPrep (r : OpRow) : OpRow :=
  { r with
    descripcion := r.descripcion.take 500,
    banco_origen := r.banco_origen.take 50,
    banco_destino := (r.banco_destino.map (·.take 50)).bind
      (fun s => if s == "" then none else some s),
    cuenta_origen := r.cuenta_origen.take 50,
    cuenta_destino := (r.cuenta_destino.map (·.take 50)).bind
      (fun s => if s == "" then none else some s) }

/-- The `MERGE` statement of `_upsert_sqlserver`: matched target rows
are updated from their source row, unmatched source rows are inserted. -/
def mergeStore (store : List StoredRow) (df : List OpRow) (now : Int) :
    List StoredRow :=
  let updated := store.map fun srow =>
    match df.find? (fun r => r.numero_operacion == srow.row.numero_operacion) with
    | some r => updatedRow srow r now
    | none => srow
  let inserted := df.filter fun r =>
    !(store.map (·.row.numero_operacion)).contains r.numero_operacion
  updated ++ inserted.map (⟨·, now⟩)

/-- `SQLLoader._upsert_sqlserver` via `upsert_data`: one MERGE inside
one transaction, then `load_stats['rows_inserted'] = len(df)` —
regardless of how many source rows matched; `rows_updated` stays 0. -/
def upsertSqlserver (df : List OpRow) (store : List StoredRow) (now : Int) :
    List StoredRow × LoadStats :=
  let dfp := df.map sqlserverPrep
  (mergeStore store dfp now,
   { rows_inserted := df.length, rows_updated := 0,
     rows_failed := 0, total_processed := df.length })

/-! ## Pipeline metrics (metrics.py) and orchestrator
(scripts/run_etl_pipeline.py)

Wall-clock instants are integers (epoch seconds), so the duration
computed by `finalize` is an integer difference.  File/database I/O is
passed in through a `RunEnv`: the result of reading the input CSV, the
store the loader runs against, and an optional load-stage failure
(either the `ConnectionError` raised by `SQLLoader.connect` or the
exception wrapped by `upsert_data` into a `RuntimeError`). -/

structure PipelineMetrics where
  pipeline_id : String
  start_time : Int
  end_time : Option Int
  input_file : String
  input_rows : Nat
  validation_passed : Nat
  validation_failed : Nat
  validation_errors : List ErrorEntry
  duplicates_found : Nat
  duplicates_removed : Nat
  rows_loaded : Nat
  rows_updated : Nat
  load_failed : Nat
  processing_time_seconds : Int
  status : String
  error_message : String
  deriving DecidableEq

/-- `PipelineMetrics.finalize`: compute the duration when an end time
has been recorded. -/
def PipelineMetrics.finalize (m : PipelineMetrics) : PipelineMetrics :=
  match m.end_time with
  | some e => { m with processing_time_seconds := e - m.start_time }
  | none => m

/-- A load-stage failure: `SQLLoader.connect` raises
`ConnectionError("Failed to connect to database: " + cause)`;
`SQLLoader.upsert_data` wraps any cause into
`RuntimeError("Failed to load data: " + cause)`. -/
inductive LoadFailure where
  | connectFailure (cause : String)
  | upsertFailure (cause : String)
  deriving DecidableEq

def LoadFailure.message : LoadFailure → String
  | .connectFailure cause => "Failed to connect to database: " ++ cause
  | .upsertFailure cause => "Failed to load data: " ++ cause

/-- The environment of one `ETLPipeline.run` call. -/
structure RunEnv where
  pipeline_id : String
  t_start : Int
  t_end : Int
  input_file : String
  now : Int
  extractResult : Except String DataFrame
  store : List StoredRow
  loadFailure : Option LoadFailure
  deriving Inhabited

/-- The observable outcome of a run: the in-memory metrics object, the
metrics records persisted by `_save_metrics`, and whether the call
returned or re-raised. -/
structure RunResult where
  metrics : PipelineMetrics
  saved : List PipelineMetrics
  outcome : Except String Unit

/-- The `except` branch of `ETLPipeline.run`: stamp the end time, mark
the run failed with the exception message, finalize, persist, re-raise. -/
def failRun (env : RunEnv) (m : PipelineMetrics) (msg : String) : RunResult :=
  let m1 := PipelineMetrics.finalize
    { m with end_time := some env.t_end, status := "failed", error_message := msg }
  { metrics := m1, saved := [m1], outcome := .error msg }

/-- `ETLPipeline.run`: extract → validate → deduplicate → load, filling
the shared metrics as each stage completes; on success the run is
marked "success", finalized and persisted; on any exception the run is
marked "failed" and the partial metrics are still finalized and
persisted (`_save_metrics` in both branches). -/
def ETLPipeline.run (env : RunEnv) : RunResult :=
  let m0 : PipelineMetrics :=
    { pipeline_id := env.pipeline_id, start_time := env.t_start, end_time := none,
      input_file := env.input_file, input_rows := 0,
      validation_passed := 0, validation_failed := 0, validation_errors := [],
      duplicates_found := 0, duplicates_removed := 0,
      rows_loaded := 0, rows_updated := 0, load_failed := 0,
      processing_time_seconds := 0, status := "running", error_message := "" }
  match env.extractResult with
  | .error e => failRun env m0 e
  | .ok df =>
    let m1 := { m0 with input_rows := df.rows.length }
    let vres := validate env.now df none
    let report := vres.2
    let m2 := { m1 with
      validation_passed := report.valid_rows,
      validation_failed := report.invalid_rows,
      validation_errors := report.errors.take 100 }
    match deduplicate vres.1 "hash" none with
    | .error e => failRun env m2 e
    | .ok (dedupDf, dstats) =>
      let m3 := { m2 with
        duplicates_found := dstats.duplicates_found,
        duplicates_removed := dstats.duplicates_removed }
      match env.loadFailure with
      | some f => failRun env m3 f.message
      | none =>
        let lres := upsertSqlite dedupDf.rows env.store env.now
        let m4 := { m3 with
          rows_loaded := lres.2.rows_inserted,
          rows_updated := lres.2.rows_updated,
          load_failed := lres.2.rows_failed }
        let m5 := PipelineMetrics.finalize
          { m4 with end_time := some env.t_end, status := "success" }
        { metrics := m5, saved := [m5], outcome := .ok () }

/-! ## Concrete inputs used by witnesses and counterexamples -/

/-- A minimal row that satisfies every per-cell schema rule. -/
def sampleRow : OpRow :=
  { fecha_operacion := 0, numero_operacion := "OP-12345678",
    tipo_operacion := "DEPOSITO", monto := 100, moneda := "PEN",
    cuenta_origen := "123-1234567-1-12", cuenta_destino := none,
    banco_origen := "BCP", banco_destino := none, descripcion := "pago",
    estado := "COMPLETADA", canal := "WEB", content_hash := "h1" }

def c8df : DataFrame := { presentCols := requiredCols, rows := [sampleRow] }

def c10df : DataFrame :=
  { presentCols := ["fecha_operacion", "numero_operacion", "tipo_operacion",
      "moneda", "cuenta_origen", "banco_origen", "descripcion", "estado", "canal"],
    rows := [sampleRow] }

def c4badRow : OpRow := { sampleRow with monto := -1 }

def c4df : DataFrame := { presentCols := requiredCols, rows := List.replicate 101 c4badRow }

def c4emptyDf : DataFrame := { presentCols := requiredCols, rows := [] }

def c4env : RunEnv :=
  { pipeline_id := "p", t_start := 0, t_end := 1, input_file := "f", now := 0,
    extractResult := .ok c4emptyDf, store := [], loadFailure := none }

def c5r1 : OpRow := { sampleRow with content_hash := "a" }

def c5r2 : OpRow := { sampleRow with content_hash := "a", descripcion := "dup" }

def c5r3 : OpRow := { sampleRow with content_hash := "b" }

def c5df : DataFrame :=
  { presentCols := requiredCols ++ ["content_hash"], rows := [c5r1, c5r2, c5r3] }

def c5pair : DataFrame × DedupStats :=
  ((deduplicate c5df "hash" none).toOption).getD (⟨[], []⟩, ⟨0, 0, 0, 0⟩)

def c7r2 : OpRow :=
  { sampleRow with
    estado := "PENDIENTE",
    descripcion := "otra",
    moneda := "USD",
    content_hash := "zz" }

def c9df : DataFrame := { presentCols := requiredCols, rows := [] }

def c9env : RunEnv :=
  { pipeline_id := "p", t_start := 10, t_end := 25, input_file := "f", now := 0,
    extractResult := .ok c9df, store := [], loadFailure := some (.connectFailure "refused") }

/-- One conditional row update, as applied to a single stored row. -/
def updStep (s : StoredRow) (r : OpRow) (t : Int) : StoredRow :=
  if s.row.numero_operacion == r.numero_operacion then updatedRow s r t else s

/-- The combined effect on one stored row of running all updates. -/
def updateOne (rs : List OpRow) (t : Int) (s : StoredRow) : StoredRow :=
  rs.foldl (fun s r => updStep s r t) s

def pad8 (n : Nat) : String :=
  let s := toString n
  ⟨List.replicate (8 - s.length) '0' ++ s.data⟩

def c1df100 : List OpRow :=
  (List.range 100).map fun i =>
    { sampleRow with numero_operacion := "OP-" ++ pad8 i }

def c1dfW : List OpRow :=
  [sampleRow, { sampleRow with numero_operacion := "OP-00000002" }]

def c2new : OpRow := { sampleRow with numero_operacion := "OP-00000002" }

def c2upd : OpRow := { sampleRow with descripcion := "cambiado" }

/-! ## Helper lemmas -/

/-- Folding `add_error` over the failure cases appends one entry per
case and changes no other report field. -/
theorem foldl_add_error_spec (fcs : List FailureCase) (rep : ValidationReport) :
    fcs.foldl (fun rp fc => rp.add_error fc.idx fc.column fc.check) rep =
      { rep with errors :=
          rep.errors ++ fcs.map (fun fc => ⟨fc.idx, fc.column, fc.check⟩) } := by
  induction fcs generalizing rep with
  | nil => simp
  | cons fc fcs ih =>
    rw [List.foldl_cons, ih]
    simp [ValidationReport.add_error]

/-- The rows kept by `_handle_schema_errors` are never more numerous
than the input rows. -/
theorem handleSchemaErrors_valid_le (df : DataFrame) (fcs : List FailureCase)
    (rep : ValidationReport) :
    (handleSchemaErrors df fcs rep).2.valid_rows ≤ df.rows.length := by
  simp only [handleSchemaErrors]
  split
  · simp
  · calc ((df.rows.enum.filter fun p => !(invalidIndicesOf fcs).contains p.1).map (·.2)).length
        = (df.rows.enum.filter fun p => !(invalidIndicesOf fcs).contains p.1).length := by
          simp
      _ ≤ df.rows.enum.length := List.length_filter_le _ _
      _ = df.rows.length := List.enum_length

/-- `_handle_schema_errors` does not touch `total_rows` or `warnings`,
and its errors are the mapped failure cases. -/
theorem handleSchemaErrors_fields (df : DataFrame) (fcs : List FailureCase)
    (rep : ValidationReport) :
    (handleSchemaErrors df fcs rep).2.total_rows = rep.total_rows ∧
    (handleSchemaErrors df fcs rep).2.warnings = rep.warnings ∧
    (handleSchemaErrors df fcs rep).2.errors =
      rep.errors ++ fcs.map (fun fc => ⟨fc.idx, fc.column, fc.check⟩) := by
  simp [handleSchemaErrors, foldl_add_error_spec]

/-! ## C3 — validation partition law -/

/-- C3: for every input batch, the report returned by `validate`
satisfies `valid_rows + invalid_rows = total_rows`. -/
theorem validation_partition_law (now : Int) (df : DataFrame) (ec : Option ℚ) :
    (validate now df ec).2.valid_rows + (validate now df ec).2.invalid_rows =
      (validate now df ec).2.total_rows := by
  have h2 := handleSchemaErrors_valid_le df (schemaFailureCases now df)
    { total_rows := df.rows.length, valid_rows := 0, invalid_rows := 0,
      errors := [], warnings := [] }
  have h1 := (handleSchemaErrors_fields df (schemaFailureCases now df)
    { total_rows := df.rows.length, valid_rows := 0, invalid_rows := 0,
      errors := [], warnings := [] }).1
  simp only at h1
  cases ec with
  | none =>
    simp only [validate]
    split
    · simp
    · omega
  | some t =>
    simp only [validate]
    split
    · split <;> simp [ValidationReport.add_warning]
    · split
      · omega
      · simp only [ValidationReport.add_warning]
        omega

/-! ## C8 — the checksum check warns and never invalidates -/

theorem validate_none_no_warnings (now : Int) (df : DataFrame) :
    (validate now df none).2.warnings = [] := by
  simp only [validate]
  split
  · simp
  · simp [(handleSchemaErrors_fields df (schemaFailureCases now df) _).2.1]

/-- C8: supplying an `expected_total` leaves the valid rows, the error
list and the row counts exactly as without it; the only effect is a
warning, present iff the total of `amount` over the valid rows differs
from the expected total by at least the 0.01 tolerance. -/
theorem checksum_is_warning_only (now : Int) (df : DataFrame) (t : ℚ)
    (_hmonto : df.presentCols.contains "monto" = true) :
    (validate now df (some t)).1 = (validate now df none).1 ∧
    (validate now df (some t)).2.errors = (validate now df none).2.errors ∧
    (validate now df (some t)).2.valid_rows = (validate now df none).2.valid_rows ∧
    (validate now df (some t)).2.invalid_rows = (validate now df none).2.invalid_rows ∧
    (validate now df (some t)).2.warnings =
      (if |sumMonto (validate now df none).1 - t| < 1 / 100 then []
       else [checksumMsg t (sumMonto (validate now df none).1)]) := by
  simp only [validate]
  split
  · by_cases hc : |sumMonto df - t| < 1 / 100 <;>
      [rw [one_div] at hc; rw [one_div] at hc] <;>
      simp [validate_checksum, hc, ValidationReport.add_warning]
  · by_cases hc : |sumMonto (handleSchemaErrors df (schemaFailureCases now df)
        { total_rows := df.rows.length, valid_rows := 0, invalid_rows := 0,
          errors := [], warnings := [] }).1 - t| < 1 / 100 <;>
      [rw [one_div] at hc; rw [one_div] at hc] <;>
      simp [validate_checksum, hc, ValidationReport.add_warning,
        (handleSchemaErrors_fields df (schemaFailureCases now df) _).2.1]

theorem checksum_is_warning_only_witness :
    c8df.presentCols.contains "monto" = true ∧
    (validate 0 c8df (some 5)).2.errors = (validate 0 c8df none).2.errors ∧
    (validate 0 c8df (some 5)).2.valid_rows = (validate 0 c8df none).2.valid_rows ∧
    (validate 0 c8df (some 5)).2.warnings =
      (if |sumMonto (validate 0 c8df none).1 - 5| < 1 / 100 then []
       else [checksumMsg 5 (sumMonto (validate 0 c8df none).1)]) := by
  have h := checksum_is_warning_only 0 c8df 5 (by decide)
  exact ⟨by decide, h.2.1, h.2.2.1, h.2.2.2.2⟩

/-! ## C10 — schema failures without an extractable row index -/

/-- C10: when validation fails but no recorded failure case carries an
integer row index, the whole input is returned as valid: `valid_rows`
equals `total_rows`, `invalid_rows` is 0, yet `errors` is non-empty. -/
theorem no_integer_index_keeps_all (now : Int) (df : DataFrame)
    (hne : schemaFailureCases now df ≠ [])
    (hnone : ∀ fc ∈ schemaFailureCases now df, fc.idx = none) :
    (validate now df none).1.rows = df.rows ∧
    (validate now df none).2.valid_rows = (validate now df none).2.total_rows ∧
    (validate now df none).2.invalid_rows = 0 ∧
    (validate now df none).2.errors ≠ [] := by
  have hinv : invalidIndicesOf (schemaFailureCases now df) = [] := by
    simp only [invalidIndicesOf]
    rw [List.dedup_eq_nil, List.filterMap_eq_nil_iff]
    exact hnone
  have hempty : (schemaFailureCases now df).isEmpty = false := by
    simpa [List.isEmpty_iff] using hne
  simp only [validate, hempty, Bool.false_eq_true, if_false,
    handleSchemaErrors, foldl_add_error_spec, hinv, List.isEmpty_nil, if_true]
  refine ⟨by trivial, by simp, by simp, ?_⟩
  simp [List.map_eq_nil_iff, hne]

theorem no_integer_index_keeps_all_witness :
    (validate 0 c10df none).1.rows = c10df.rows ∧
    (validate 0 c10df none).2.invalid_rows = 0 ∧
    (validate 0 c10df none).2.errors ≠ [] := by
  have h := no_integer_index_keeps_all 0 c10df (by decide) (by decide)
  exact ⟨h.1, h.2.2.1, h.2.2.2⟩

/-! ## C4 — error collection is not capped inside the report

The claim places a 100-error cap inside `report.errors`.  In the code
`ValidationReport.add_error` appends unconditionally; the first-100 cap
is applied by the orchestrator when it copies the report errors into the
pipeline metrics (`validation_errors = report_dict['errors'][:100]`). -/

set_option maxRecDepth 40000 in
/-- C4 counterexample: a batch of 101 rows with a negative amount
produces more than 100 entries in `report.errors` — the report itself
is not capped at 100. -/
theorem errors_cap_counterexample : 100 < (validate 0 c4df none).2.errors.length := by
  decide

/-- C4 as amended: every violation is appended to `report.errors` with
no cap; the valid output drops exactly the rows whose position occurs
as an integer index of some failure case; and the first-100 cap is
applied by the orchestrator when copying the errors into the pipeline
metrics. -/
theorem validate_errors_uncapped (now : Int) (df : DataFrame) :
    (validate now df none).2.errors =
      (schemaFailureCases now df).map
        (fun fc => (⟨fc.idx, fc.column, fc.check⟩ : ErrorEntry)) ∧
    (validate now df none).1.rows =
      (df.rows.enum.filter
        (fun p => !(invalidIndicesOf (schemaFailureCases now df)).contains p.1)).map
        (·.2) ∧
    (∀ env : RunEnv, ∀ df1, env.extractResult = .ok df1 →
      (ETLPipeline.run env).metrics.validation_errors =
        ((validate env.now df1 none).2.errors).take 100) := by
  refine ⟨?_, ?_, ?_⟩
  · simp only [validate]
    split
    · rename_i h
      simp_all [List.isEmpty_iff]
    · simp [(handleSchemaErrors_fields df (schemaFailureCases now df) _).2.2]
  · simp only [validate]
    split
    · rename_i h
      rw [List.isEmpty_iff] at h
      simp [h, invalidIndicesOf, List.enum_map_snd]
    · simp only [handleSchemaErrors]
      split
      · rename_i h
        rw [List.isEmpty_iff] at h
        simp [h, List.enum_map_snd]
      · rfl
  · intro env df1 hex
    cases henv : env.loadFailure <;>
      simp [ETLPipeline.run, hex, failRun, PipelineMetrics.finalize, deduplicate, henv]

theorem validate_errors_uncapped_witness :
    (ETLPipeline.run c4env).metrics.validation_errors =
      ((validate 0 c4emptyDf none).2.errors).take 100 ∧
    (validate 0 c4emptyDf none).2.errors =
      (schemaFailureCases 0 c4emptyDf).map
        (fun fc => (⟨fc.idx, fc.column, fc.check⟩ : ErrorEntry)) := by
  have h := validate_errors_uncapped 0 c4emptyDf
  exact ⟨h.2.2 c4env c4emptyDf rfl, h.1⟩

/-! ## Deduplication lemmas -/

theorem dupMask_length {κ : Type} [DecidableEq κ] (key : OpRow → κ) :
    ∀ (rows : List OpRow) (seen : List κ), (dupMask key seen rows).length = rows.length := by
  intro rows
  induction rows with
  | nil => intro seen; rfl
  | cons x xs ih => intro seen; simp [dupMask, ih]

theorem maskKeep_length_add_count :
    ∀ (rows : List OpRow) (mask : List Bool), mask.length = rows.length →
      (maskKeep rows mask).length + mask.count true = rows.length := by
  intro rows
  induction rows with
  | nil =>
    intro mask h
    rw [List.length_nil, List.length_eq_zero] at h
    simp [h, maskKeep]
  | cons x xs ih =>
    intro mask h
    cases mask with
    | nil => simp at h
    | cons b bs =>
      simp only [List.length_cons, Nat.add_right_cancel_iff] at h
      have hih := ih bs h
      cases b <;> simp [maskKeep, List.count_cons] <;> omega

theorem maskKeep_sublist :
    ∀ (rows : List OpRow) (mask : List Bool), (maskKeep rows mask).Sublist rows := by
  intro rows
  induction rows with
  | nil => intro mask; simp [maskKeep]
  | cons x xs ih =>
    intro mask
    cases mask with
    | nil => simp [maskKeep]
    | cons b bs =>
      cases b with
      | true => exact (ih bs).trans (List.sublist_cons_self x xs)
      | false => simpa [maskKeep] using (ih bs).cons₂ x

/-- Keep-first semantics of `duplicated(keep='first')` + `df[~mask]`:
for every key value, the kept rows with that key are exactly the first
input row with that key (none if the key was already seen). -/
theorem filter_maskKeep_dupMask {κ : Type} [DecidableEq κ] (key : OpRow → κ) :
    ∀ (rows : List OpRow) (seen : List κ) (hv : κ),
      (maskKeep rows (dupMask key seen rows)).filter (fun r => key r = hv) =
        if hv ∈ seen then [] else (rows.filter (fun r => key r = hv)).take 1 := by
  intro rows
  induction rows with
  | nil => intro seen hv; simp [dupMask, maskKeep]
  | cons x xs ih =>
    intro seen hv
    by_cases hx : key x ∈ seen
    · simp only [dupMask, if_pos hx, maskKeep, if_true]
      rw [ih (key x :: seen) hv]
      by_cases hhv : hv ∈ seen
      · simp [hhv, List.mem_cons]
      · have hne : ¬(key x = hv) := by
          intro he
          exact hhv (he ▸ hx)
        simp only [List.mem_cons, if_neg hhv]
        rw [if_neg (by tauto)]
        rw [List.filter_cons_of_neg (by simpa using hne)]
    · simp only [dupMask, if_neg hx, maskKeep, Bool.false_eq_true, if_false]
      by_cases hxv : key x = hv
      · subst hxv
        rw [List.filter_cons_of_pos (by simp)]
        rw [List.filter_cons_of_pos (by simp)]
        rw [ih (key x :: seen) (key x)]
        simp [hx]
      · rw [List.filter_cons_of_neg (by simpa using hxv)]
        rw [List.filter_cons_of_neg (by simpa using hxv)]
        rw [ih (key x :: seen) hv]
        by_cases hhv : hv ∈ seen
        · simp [hhv]
        · have hnc : ¬ hv ∈ key x :: seen := by
            simp only [List.mem_cons]
            rintro (he | he)
            · exact hxv he.symm
            · exact hhv he
          rw [if_neg hhv, if_neg hnc]

/-! ## C5 — hash-strategy deduplication is keep-first on content_hash -/

/-- C5: under the hash strategy (with the `content_hash` column
present), the output is an order-preserving subsequence of the input;
for every hash value the output keeps exactly the earliest input row
with that hash; and `duplicates_found` counts exactly the non-kept
rows. -/
theorem dedup_hash_keep_first (df : DataFrame) (kc : Option (List String))
    (res : DataFrame) (stats : DedupStats)
    (hcol : df.presentCols.contains "content_hash" = true)
    (hok : deduplicate df "hash" kc = .ok (res, stats)) :
    res.rows.Sublist df.rows ∧
    (∀ hv : String, res.rows.filter (fun r => r.content_hash = hv) =
        (df.rows.filter (fun r => r.content_hash = hv)).take 1) ∧
    stats.duplicates_found + res.rows.length = df.rows.length ∧
    stats.duplicates_found = stats.duplicates_removed := by
  simp only [deduplicate, deduplicate_by_hash] at hok
  rw [if_pos (by decide : (("hash" : String) == "hash") = true)] at hok
  rw [if_pos hcol] at hok
  injection hok with h
  injection h with hres hstats
  subst hres hstats
  have hmask := dupMask_length (fun r => r.content_hash) df.rows []
  have hcount := maskKeep_length_add_count df.rows
    (dupMask (fun r => r.content_hash) [] df.rows) hmask
  refine ⟨?_, ?_, ?_, ?_⟩
  · exact maskKeep_sublist df.rows _
  · intro hv
    simpa using filter_maskKeep_dupMask (fun r => r.content_hash) df.rows [] hv
  · simp only
    omega
  · simp only
    omega

theorem dedup_hash_keep_first_witness :
    c5pair.1.rows.Sublist c5df.rows ∧
    c5pair.1.rows.filter (fun r => r.content_hash = "a") =
      (c5df.rows.filter (fun r => r.content_hash = "a")).take 1 ∧
    c5pair.2.duplicates_found + c5pair.1.rows.length = c5df.rows.length := by
  have h := dedup_hash_keep_first c5df none c5pair.1 c5pair.2 (by decide) rfl
  exact ⟨h.1, h.2.1 "a", h.2.2.1⟩

/-! ## C6 — deduplication count laws -/

/-- C6: for the hash and key strategies the returned statistics satisfy
`final_count = total_input - duplicates_removed`,
`duplicates_removed = duplicates_found` and
`final_count ≤ total_input`. -/
theorem dedup_count_law (df : DataFrame) (strategy : String)
    (kc : Option (List String)) (res : DataFrame) (stats : DedupStats)
    (hs : strategy = "hash" ∨ strategy = "key")
    (hok : deduplicate df strategy kc = .ok (res, stats)) :
    stats.final_count = stats.total_input - stats.duplicates_removed ∧
    stats.duplicates_removed = stats.duplicates_found ∧
    stats.final_count ≤ stats.total_input := by
  rcases hs with rfl | rfl
  · simp only [deduplicate, deduplicate_by_hash] at hok
    rw [if_pos (by decide : (("hash" : String) == "hash") = true)] at hok
    injection hok with h
    injection h with hres hstats
    subst hres hstats
    set df1 := if df.presentCols.contains "content_hash" = true then df
      else dedupGenerateContentHash df with hdf1
    have hlen1 : df1.rows.length = df.rows.length := by
      rw [hdf1]; split <;> simp [dedupGenerateContentHash]
    have hmask := dupMask_length (fun r => r.content_hash) df1.rows []
    have hcount := maskKeep_length_add_count df1.rows
      (dupMask (fun r => r.content_hash) [] df1.rows) hmask
    simp only
    omega
  · simp only [deduplicate, deduplicate_by_key] at hok
    rw [if_neg (by decide : ¬ ((("key" : String) == "hash") = true))] at hok
    rw [if_pos (by decide : (("key" : String) == "key") = true)] at hok
    injection hok with h
    injection h with hres hstats
    subst hres hstats
    have hmask := dupMask_length
      (fun r => (kc.getD ["numero_operacion"]).map (cellValue r)) df.rows []
    have hcount := maskKeep_length_add_count df.rows
      (dupMask (fun r => (kc.getD ["numero_operacion"]).map (cellValue r)) [] df.rows)
      hmask
    simp only
    omega

theorem dedup_count_law_witness :
    c5pair.2.final_count = c5pair.2.total_input - c5pair.2.duplicates_removed ∧
    c5pair.2.duplicates_removed = c5pair.2.duplicates_found ∧
    c5pair.2.final_count ≤ c5pair.2.total_input := by
  exact dedup_count_law c5df "hash" none c5pair.1 c5pair.2 (Or.inl rfl) rfl

/-! ## C7 — the content hash is a deterministic 16-character digest of
the four hash fields -/

theorem hexDigits_length : ∀ (k v : Nat), (hexDigits k v).length = k := by
  intro k
  induction k with
  | zero => intro v; rfl
  | succ k ih => intro v; simp [hexDigits, ih]

theorem sha256hexChars_length (m : List Nat) : (sha256hexChars m).length = 64 := by
  simp [sha256hexChars, hexDigits_length]

/-- C7: the content hash is a function of
(`operation_id`, `amount`, `timestamp`, `source_account`) alone — both
the validator's and the dedup engine's variant — and has 16 characters. -/
theorem content_hash_deterministic (r1 r2 : OpRow)
    (h1 : r1.numero_operacion = r2.numero_operacion)
    (h2 : r1.monto = r2.monto)
    (h3 : r1.fecha_operacion = r2.fecha_operacion)
    (h4 : r1.cuenta_origen = r2.cuenta_origen) :
    generate_content_hash_value r1 = generate_content_hash_value r2 ∧
    (∀ cols : List String,
      dedup_content_hash_value cols r1 = dedup_content_hash_value cols r2) ∧
    (generate_content_hash_value r1).length = 16 := by
  have hcol : ∀ c ∈ hashCols, colStr r1 c = colStr r2 c := by
    intro c hc
    fin_cases hc <;> simp [colStr, h1, h2, h3, h4]
  refine ⟨?_, ?_, ?_⟩
  · simp only [generate_content_hash_value]
    rw [List.map_congr_left hcol]
  · intro cols
    simp only [dedup_content_hash_value]
    rw [List.map_congr_left fun c hc => hcol c (List.mem_of_mem_filter hc)]
  · show (List.take 16 (sha256hexChars _)).length = 16
    rw [List.length_take, sha256hexChars_length]
    decide

theorem content_hash_deterministic_witness :
    generate_content_hash_value sampleRow = generate_content_hash_value c7r2 ∧
    dedup_content_hash_value requiredCols sampleRow =
      dedup_content_hash_value requiredCols c7r2 ∧
    (generate_content_hash_value sampleRow).length = 16 := by
  have h := content_hash_deterministic sampleRow c7r2 rfl rfl rfl rfl
  exact ⟨h.1, h.2.1 requiredCols, h.2.2⟩

/-! ## C9 — a failed run still finalizes and persists its metrics -/

theorem append_ne_empty (s t : String) (hs : s ≠ "") : s ++ t ≠ "" := by
  intro h
  apply hs
  have hd : (s ++ t).data = ("" : String).data := by rw [h]
  rw [String.data_append] at hd
  have : s.data = [] := (List.append_eq_nil.mp hd).1
  cases s
  simp_all

theorem loadFailure_message_ne_empty (f : LoadFailure) : f.message ≠ "" := by
  cases f with
  | connectFailure cause =>
    exact append_ne_empty _ _ (by decide)
  | upsertFailure cause =>
    exact append_ne_empty _ _ (by decide)

/-- C9: when a stage of a run raises, `run` marks the metrics "failed",
records the exception message (non-empty for the load-stage errors the
loader constructs), finalizes the duration, persists the metrics
record, and keeps the counts of the stages that completed earlier. -/
theorem pipeline_failure_metrics (env : RunEnv) :
    (∀ e, env.extractResult = .error e →
      (ETLPipeline.run env).metrics.status = "failed" ∧
      (ETLPipeline.run env).metrics.error_message = e ∧
      (ETLPipeline.run env).saved = [(ETLPipeline.run env).metrics] ∧
      (ETLPipeline.run env).metrics.processing_time_seconds =
        env.t_end - env.t_start) ∧
    (∀ df f, env.extractResult = .ok df → env.loadFailure = some f →
      (ETLPipeline.run env).metrics.status = "failed" ∧
      (ETLPipeline.run env).metrics.error_message = f.message ∧
      (ETLPipeline.run env).metrics.error_message ≠ "" ∧
      (ETLPipeline.run env).saved = [(ETLPipeline.run env).metrics] ∧
      (ETLPipeline.run env).metrics.processing_time_seconds =
        env.t_end - env.t_start ∧
      (ETLPipeline.run env).metrics.validation_passed =
        (validate env.now df none).2.valid_rows ∧
      (ETLPipeline.run env).metrics.validation_failed =
        (validate env.now df none).2.invalid_rows ∧
      (∀ ddf dstats,
        deduplicate (validate env.now df none).1 "hash" none = .ok (ddf, dstats) →
        (ETLPipeline.run env).metrics.duplicates_found = dstats.duplicates_found ∧
        (ETLPipeline.run env).metrics.duplicates_removed =
          dstats.duplicates_removed)) := by
  constructor
  · intro e he
    simp [ETLPipeline.run, he, failRun, PipelineMetrics.finalize]
  · intro df f hex hlf
    have hmsg := loadFailure_message_ne_empty f
    refine ⟨?_, ?_, ?_, ?_, ?_, ?_, ?_, ?_⟩ <;>
      simp [ETLPipeline.run, hex, hlf, failRun, PipelineMetrics.finalize,
        deduplicate, deduplicate_by_hash, hmsg]

theorem pipeline_failure_metrics_witness :
    (ETLPipeline.run c9env).metrics.status = "failed" ∧
    (ETLPipeline.run c9env).metrics.error_message ≠ "" ∧
    (ETLPipeline.run c9env).saved = [(ETLPipeline.run c9env).metrics] ∧
    (ETLPipeline.run c9env).metrics.processing_time_seconds = 15 := by
  have h := (pipeline_failure_metrics c9env).2 c9df (.connectFailure "refused") rfl rfl
  refine ⟨h.1, h.2.2.1, h.2.2.2.1, ?_⟩
  rw [h.2.2.2.2.1]
  decide

/-! ## Loader lemmas for C1 -/

theorem applyUpdate_eq_map (st : List StoredRow) (r : OpRow) (t : Int) :
    applyUpdate st r t = st.map (fun s => updStep s r t) := rfl

theorem foldl_applyUpdate_as_map (rs : List OpRow) (st : List StoredRow) (t : Int) :
    rs.foldl (fun st r => applyUpdate st r t) st = st.map (updateOne rs t) := by
  induction rs generalizing st with
  | nil =>
    have h : updateOne [] t = fun s => s := rfl
    rw [h]
    simp
  | cons r rs ih =>
    rw [List.foldl_cons, ih, applyUpdate_eq_map, List.map_map]
    rfl

theorem updStep_key (s : StoredRow) (r : OpRow) (t : Int) :
    (updStep s r t).row.numero_operacion = s.row.numero_operacion := by
  simp only [updStep]
  split
  · rename_i h
    simp only [updatedRow]
  · rfl

theorem updateOne_key (rs : List OpRow) (t : Int) (s : StoredRow) :
    (updateOne rs t s).row.numero_operacion = s.row.numero_operacion := by
  induction rs generalizing s with
  | nil => rfl
  | cons r rs ih => rw [updateOne, List.foldl_cons, ← updateOne, ih, updStep_key]

theorem updateOne_not_mem (rs : List OpRow) (t : Int) (s : StoredRow)
    (h : ∀ r ∈ rs, r.numero_operacion ≠ s.row.numero_operacion) :
    updateOne rs t s = s := by
  induction rs generalizing s with
  | nil => rfl
  | cons r rs ih =>
    rw [updateOne, List.foldl_cons, ← updateOne]
    have hne : (s.row.numero_operacion == r.numero_operacion) = false := by
      simpa using fun he => h r (List.mem_cons_self r rs) he.symm
    rw [updStep, if_neg (by simp [hne])]
    exact ih s fun r2 h2 => h r2 (List.mem_cons_of_mem r h2)

/-- Under a batch with pairwise-distinct keys, running all updates over
one stored row is applying the unique matching batch row, if any. -/
theorem updateOne_find (rs : List OpRow) (t : Int) (s : StoredRow)
    (hnd : (rs.map (·.numero_operacion)).Nodup) :
    updateOne rs t s =
      match rs.find? (fun r => s.row.numero_operacion == r.numero_operacion) with
      | some r => updatedRow s r t
      | none => s := by
  induction rs generalizing s with
  | nil => rfl
  | cons r rs ih =>
    by_cases hk : s.row.numero_operacion = r.numero_operacion
    · rw [List.find?_cons_of_pos _ (by simp [hk])]
      rw [updateOne, List.foldl_cons, ← updateOne]
      rw [updStep, if_pos (by simp [hk])]
      apply updateOne_not_mem
      intro r2 h2 he
      have he2 : r2.numero_operacion = r.numero_operacion := by
        rw [he]
        simp only [updatedRow]
        exact hk
      have hmem : r.numero_operacion ∈ rs.map (·.numero_operacion) := by
        rw [← he2]
        exact List.mem_map_of_mem _ h2
      simp only [List.map_cons, List.nodup_cons] at hnd
      exact hnd.1 hmem
    · rw [List.find?_cons_of_neg _ (by simp [hk])]
      rw [updateOne, List.foldl_cons, ← updateOne]
      rw [updStep, if_neg (by simp [hk])]
      simp only [List.map_cons, List.nodup_cons] at hnd
      exact ih s hnd.2

theorem upsertSqlite_store_keys (df : List OpRow) (s0 : List StoredRow) (t : Int) :
    (upsertSqlite df s0 t).1.map (·.row.numero_operacion) =
      s0.map (·.row.numero_operacion) ++
        (df.filter fun r =>
          !(s0.map (·.row.numero_operacion)).contains r.numero_operacion).map
          (·.numero_operacion) := by
  simp only [upsertSqlite, foldl_applyUpdate_as_map, List.map_map, List.map_append]
  congr 1
  · exact List.map_congr_left fun s _ => updateOne_key _ t s
  · exact List.map_congr_left fun r _ => updateOne_key _ t _

/-! ## C1 — idempotency of upsert, as it actually holds -/

/-- C1 (amended): re-running the SQLite upsert with an identical batch
of distinct-key records inserts nothing, updates the whole batch, adds
no row, and leaves every stored column other than the load timestamp
`fecha_carga` unchanged; on an empty store the first run reports all
rows inserted and none updated. -/
theorem upsert_sqlite_idempotent (df : List OpRow) (s0 : List StoredRow) (t1 t2 : Int)
    (hnd : (df.map (·.numero_operacion)).Nodup) :
    (upsertSqlite df (upsertSqlite df s0 t1).1 t2).1.length =
      (upsertSqlite df s0 t1).1.length ∧
    (upsertSqlite df (upsertSqlite df s0 t1).1 t2).2.rows_inserted = 0 ∧
    (upsertSqlite df (upsertSqlite df s0 t1).1 t2).2.rows_updated = df.length ∧
    (upsertSqlite df (upsertSqlite df s0 t1).1 t2).1.map (·.row) =
      (upsertSqlite df s0 t1).1.map (·.row) ∧
    (s0 = [] →
      (upsertSqlite df s0 t1).2.rows_inserted = df.length ∧
      (upsertSqlite df s0 t1).2.rows_updated = 0 ∧
      (upsertSqlite df s0 t1).1.length = df.length) := by
  have hinj := List.inj_on_of_nodup_map hnd
  set key : OpRow → String := fun r => r.numero_operacion with hkey
  set s0keys := s0.map (·.row.numero_operacion) with hs0keys
  set new1 := df.filter (fun r => !s0keys.contains r.numero_operacion) with hnew1
  set upd1 := df.filter (fun r => s0keys.contains r.numero_operacion) with hupd1
  set store1 := (upsertSqlite df s0 t1).1 with hstore1
  have hkeys1 : store1.map (·.row.numero_operacion) =
      s0keys ++ new1.map (·.numero_operacion) := upsertSqlite_store_keys df s0 t1
  have hupd1nd : (upd1.map (·.numero_operacion)).Nodup :=
    List.Nodup.sublist (List.Sublist.map _ (List.filter_sublist df)) hnd
  -- every batch key is present in the store after the first call
  have hmem1 : ∀ r ∈ df, (store1.map (·.row.numero_operacion)).contains
      r.numero_operacion = true := by
    intro r hr
    rw [List.elem_iff, hkeys1, List.mem_append]
    by_cases hc : s0keys.contains r.numero_operacion = true
    · left
      rwa [List.elem_iff] at hc
    · right
      refine List.mem_map_of_mem _ ?_
      rw [hnew1, List.mem_filter]
      refine ⟨hr, ?_⟩
      revert hc
      cases s0keys.contains r.numero_operacion <;> simp
  -- the second call partitions the batch as all-existing
  have hnew2 : df.filter (fun r =>
      !(store1.map (·.row.numero_operacion)).contains r.numero_operacion) = [] := by
    rw [List.filter_eq_nil_iff]
    intro r hr
    simp only [hmem1 r hr]
    simp
  have hupd2 : df.filter (fun r =>
      (store1.map (·.row.numero_operacion)).contains r.numero_operacion) = df :=
    List.filter_eq_self.mpr (hmem1)
  -- the second call is a pure map over the first store
  have hstore2 : (upsertSqlite df store1 t2).1 = store1.map (updateOne df t2) := by
    simp only [upsertSqlite]
    rw [hnew2, hupd2]
    simp [foldl_applyUpdate_as_map]
  -- agreement: every stored row already carries the fields of its batch row
  have hagree : ∀ s ∈ store1, (updateOne df t2 s).row = s.row := by
    intro s hs
    rw [updateOne_find df t2 s hnd]
    cases hfind : df.find? (fun r => s.row.numero_operacion == r.numero_operacion) with
    | none => rfl
    | some r =>
      have hrdf : r ∈ df := List.mem_of_find?_eq_some hfind
      have hkeq : s.row.numero_operacion = r.numero_operacion := by
        simpa using List.find?_some hfind
      -- (updatedRow s r t2).row = { r with numero_operacion := s.key } = r
      have hgoal : (updatedRow s r t2).row = r := by
        simp only [updatedRow, hkeq]
      rw [hgoal]
      -- now show s.row = r, from where s came from in store1
      have hs2 : ∃ x ∈ s0 ++ new1.map (fun r => (⟨r, t1⟩ : StoredRow)),
          updateOne upd1 t1 x = s := by
        rw [hstore1] at hs
        simp only [upsertSqlite, foldl_applyUpdate_as_map] at hs
        obtain ⟨x, hx, hxs⟩ := List.mem_map.mp hs
        exact ⟨x, hx, hxs⟩
      obtain ⟨x, hx, hxs⟩ := hs2
      have hxkey : s.row.numero_operacion = x.row.numero_operacion := by
        rw [← hxs, updateOne_key]
      rcases List.mem_append.mp hx with hxs0 | hxnew
      · -- x came from the pre-existing store
        rw [← hxs, updateOne_find upd1 t1 x hupd1nd]
        cases hfind1 : upd1.find?
            (fun r => x.row.numero_operacion == r.numero_operacion) with
        | none =>
          -- then x.key is a store key not matched by any update row,
          -- but r is a batch row with that key, contradiction
          exfalso
          have hrupd : r ∈ upd1 := by
            rw [hupd1, List.mem_filter]
            refine ⟨hrdf, ?_⟩
            rw [List.elem_iff]
            rw [← hkeq, hxkey]
            exact List.mem_map_of_mem _ hxs0
          have := List.find?_eq_none.mp hfind1 r hrupd
          rw [← hxkey, hkeq] at this
          simp at this
        | some r1 =>
          have hr1upd : r1 ∈ upd1 := List.mem_of_find?_eq_some hfind1
          have hr1f : r1 ∈ df.filter (fun r => s0keys.contains r.numero_operacion) := by
            rw [← hupd1]
            exact hr1upd
          have hr1df : r1 ∈ df := (List.mem_filter.mp hr1f).1
          have hk1 : x.row.numero_operacion = r1.numero_operacion := by
            simpa using List.find?_some hfind1
          have hr1r : r1 = r := by
            apply hinj hr1df hrdf
            rw [← hk1, ← hxkey, hkeq]
          simp only [updatedRow, hk1, hr1r]
      · -- x is one of the rows inserted by the first call
        obtain ⟨r2, hr2new, hr2x⟩ := List.mem_map.mp hxnew
        have hr2f : r2 ∈ df.filter (fun r => !s0keys.contains r.numero_operacion) := by
          rw [← hnew1]
          exact hr2new
        have hr2df : r2 ∈ df := (List.mem_filter.mp hr2f).1
        have hr2k : ¬ s0keys.contains r2.numero_operacion = true := by
          have := (List.mem_filter.mp hr2f).2
          simpa using this
        have hfind1 : upd1.find?
            (fun r => x.row.numero_operacion == r.numero_operacion) = none := by
          rw [List.find?_eq_none]
          intro y hy
          have hyf : y ∈ df.filter (fun r => s0keys.contains r.numero_operacion) := by
            rw [← hupd1]
            exact hy
          have hyk : s0keys.contains y.numero_operacion = true :=
            (List.mem_filter.mp hyf).2
          rw [← hr2x]
          simp only
          intro hcon
          apply hr2k
          have hk2 : r2.numero_operacion = y.numero_operacion := by simpa using hcon
          rw [hk2]
          exact hyk
        rw [← hxs, updateOne_find upd1 t1 x hupd1nd, hfind1]
        rw [← hr2x]
        simp only
        have hr2r : r2 = r := by
          apply hinj hr2df hrdf
          rw [← hkeq, hxkey, ← hr2x]
        rw [hr2r]
  refine ⟨?_, ?_, ?_, ?_, ?_⟩
  · rw [hstore2]
    simp
  · simp only [upsertSqlite, hnew2]
    rfl
  · simp only [upsertSqlite, hupd2]
  · rw [hstore2, List.map_map]
    exact List.map_congr_left fun s hs => hagree s hs
  · intro h0
    subst h0
    have hn : df.filter (fun r =>
        !(([] : List StoredRow).map (·.row.numero_operacion)).contains
          r.numero_operacion) = df := by
      rw [List.filter_eq_self]
      intro a _
      rfl
    have hu : df.filter (fun r =>
        (([] : List StoredRow).map (·.row.numero_operacion)).contains
          r.numero_operacion) = [] := by
      rw [List.filter_eq_nil_iff]
      intro a _
      simp [List.contains]
    refine ⟨?_, ?_, ?_⟩
    · simp [upsertSqlite, hn]
    · simp [upsertSqlite, hu]
    · rw [hstore1]
      simp [upsertSqlite, hn, hu, foldl_applyUpdate_as_map]

/-- C1 counterexample: (a) on the SQLite backend a second upsert of the
identical one-record batch rewrites the stored `fecha_carga` from the
first load time 0 to the second load time 1, so not every stored field
value is unchanged; (b) on the SQL Server backend re-upserting the same
100 fresh records reports `rows_inserted = 100` and `rows_updated = 0`,
not 0 and 100. -/
theorem upsert_idempotency_counterexample :
    (upsertSqlite [sampleRow] (upsertSqlite [sampleRow] [] 0).1 1).1.map
        (·.fecha_carga) = [1] ∧
    (upsertSqlite [sampleRow] [] 0).1.map (·.fecha_carga) = [0] ∧
    (upsertSqlserver c1df100 (upsertSqlserver c1df100 [] 0).1 1).2.rows_inserted
        = 100 ∧
    (upsertSqlserver c1df100 (upsertSqlserver c1df100 [] 0).1 1).2.rows_updated
        = 0 := by
  refine ⟨by decide, by decide, ?_, rfl⟩
  simp [upsertSqlserver, c1df100]

theorem upsert_sqlite_idempotent_witness :
    (upsertSqlite c1dfW (upsertSqlite c1dfW [] 3).1 7).1.length =
      (upsertSqlite c1dfW [] 3).1.length ∧
    (upsertSqlite c1dfW (upsertSqlite c1dfW [] 3).1 7).2.rows_inserted = 0 ∧
    (upsertSqlite c1dfW (upsertSqlite c1dfW [] 3).1 7).2.rows_updated = 2 ∧
    (upsertSqlite c1dfW (upsertSqlite c1dfW [] 3).1 7).1.map (·.row) =
      (upsertSqlite c1dfW [] 3).1.map (·.row) ∧
    (upsertSqlite c1dfW [] 3).2.rows_inserted = 2 := by
  have h := upsert_sqlite_idempotent c1dfW [] 3 7 (by decide)
  exact ⟨h.1, h.2.1, h.2.2.1, h.2.2.2.1, (h.2.2.2.2 rfl).1⟩

/-! ## C2 — batch atomicity is violated by the SQLite row-by-row path -/

/-- C2 (code bug): with one pre-existing row, upserting the batch
`[c2new, c2upd]` where the UPDATE of `c2upd` raises leaves the freshly
inserted row durable in the store — the store is *not* as before the
call — while the wrapper reports `rows_failed = 2` (the whole batch)
and re-raises. -/
theorem upsert_atomicity_code_bug :
    upsert_data_sqlite (fun r => r.numero_operacion == "OP-12345678")
      [c2new, c2upd] [⟨sampleRow, 0⟩] 5 =
      .error ("Failed to load data: database is locked",
        [⟨sampleRow, 0⟩, ⟨c2new, 5⟩],
        ⟨1, 0, 2, 2⟩) ∧
    ([⟨sampleRow, 0⟩, ⟨c2new, 5⟩] : List StoredRow) ≠ [⟨sampleRow, 0⟩] := by
  exact ⟨rfl, by decide⟩

end ETL
